import Mathlib

/-!
Shallow embedding of the neon-pinball game core (src/App.tsx): entities,
per-tick physics integration, collision resolution, launch mechanics, the
game state machine, trail bookkeeping, and the stored high-score loading
path.  The source's JavaScript number arithmetic is embedded over ℝ;
Math.sqrt, Math.cos, Math.sin and Math.atan2 become Real.sqrt, Real.cos,
Real.sin and the complex argument.  Random cosmetic particles and the 100 ms
timer that clears a bumper's hit flag live outside the embedded state: they
feed only the renderer and influence none of the quantities specified below.
-/

open scoped Classical

/-! ### High-score persistence (highScore initializer, App.tsx lines 38-41) -/

/-- Whitespace accepted (and skipped) by ECMAScript parseInt. -/
def isWsJS (c : Char) : Bool :=
  c == ' ' || c == '\t' || c == '\n' || c == '\r'

/-- Drop the leading run of whitespace, as ECMAScript parseInt does. -/
def skipWs : List Char → List Char
  | [] => []
  | c :: rest => if isWsJS c then skipWs rest else c :: rest

/-- Hexadecimal digit test for ECMAScript parseInt with an 0x/0X prefix. -/
def isHexDigitJS (c : Char) : Bool :=
  c.isDigit || ('a' ≤ c && c ≤ 'f') || ('A' ≤ c && c ≤ 'F')

/-- Numeric value of one hexadecimal digit. -/
def hexDigitVal (c : Char) : ℤ :=
  if c.isDigit then (c.toNat : ℤ) - 48
  else if 'a' ≤ c && c ≤ 'f' then (c.toNat : ℤ) - 87
  else (c.toNat : ℤ) - 55

/-- Value of a string of hexadecimal digits, most significant first. -/
def hexValue (cs : List Char) : ℤ :=
  cs.foldl (fun a c => a * 16 + hexDigitVal c) 0

/-- Value of a string of decimal digits, most significant first. -/
def decValue (cs : List Char) : ℤ :=
  cs.foldl (fun a c => a * 10 + ((c.toNat : ℤ) - 48)) 0

/-- ECMAScript parseInt(string) with the radix argument omitted, as called by
the highScore initializer: skip whitespace, read an optional sign, honour an
optional 0x/0X prefix (base 16), then read the longest digit run and ignore
any trailing garbage.  When no digit is found the JavaScript call returns the
floating NaN value, embedded here as `none`. -/
def parseIntJS (cs : List Char) : Option ℤ :=
  let s1 := skipWs cs
  let signed : ℤ × List Char :=
    match s1 with
    | '-' :: rest => (-1, rest)
    | '+' :: rest => (1, rest)
    | other => (1, other)
  match signed.2 with
  | '0' :: 'x' :: rest =>
    let ds := rest.takeWhile isHexDigitJS
    if ds = [] then none else some (signed.1 * hexValue ds)
  | '0' :: 'X' :: rest =>
    let ds := rest.takeWhile isHexDigitJS
    if ds = [] then none else some (signed.1 * hexValue ds)
  | other =>
    let ds := other.takeWhile Char.isDigit
    if ds = [] then none else some (signed.1 * decValue ds)

/-- The highScore initializer (App.tsx lines 38-41):
`const saved = localStorage.getItem(...); return saved ? parseInt(saved) : 0`.
A missing key (`none`) and the falsy empty string both yield 0; any other
stored string goes through parseInt, whose NaN result is `none`. -/
def loadHighScore (stored : Option (List Char)) : Option ℤ :=
  match stored with
  | none => some 0
  | some [] => some 0
  | some cs => parseIntJS cs

/-! ### Entities and game state -/

/-- The ball (interface Ball). -/
@[ext] structure Ball where
  x : ℝ
  y : ℝ
  vx : ℝ
  vy : ℝ
  radius : ℝ

/-- A bumper (interface Bumper); the color string is cosmetic and omitted. -/
@[ext] structure Bumper where
  x : ℝ
  y : ℝ
  radius : ℝ
  points : ℤ
  hit : Bool

/-- Which side a flipper is on (the source's 'left' | 'right' union). -/
inductive FSide where
  | left
  | right
deriving DecidableEq

/-- A flipper (interface Flipper). -/
@[ext] structure Flipper where
  x : ℝ
  y : ℝ
  length : ℝ
  angle : ℝ
  targetAngle : ℝ
  side : FSide

/-- One point of the ball trail. -/
@[ext] structure TrailPoint where
  x : ℝ
  y : ℝ
  alpha : ℝ

/-- The game state machine's phase. -/
inductive GState where
  | ready
  | launching
  | playing
  | gameover
deriving DecidableEq

/-- The inputs the loop reads from the held-key set: space (launch/start),
z/ArrowLeft (left flipper), / /ArrowRight (right flipper). -/
@[ext] structure Keys where
  space : Bool
  leftKey : Bool
  rightKey : Bool

/-- A logical key, for the keydown/keyup handlers. -/
inductive Key where
  | space
  | leftFlip
  | rightFlip
deriving DecidableEq

/-- The whole mutable state the loop and the handlers touch.  `stored` is the
value last written to localStorage under the high-score key. -/
@[ext] structure GameS where
  ball : Ball
  flippers : List Flipper
  bumpers : List Bumper
  score : ℤ
  highScore : ℤ
  ballsLeft : ℤ
  gameState : GState
  launchPower : ℝ
  trail : List TrailPoint
  keys : Keys
  stored : ℤ

noncomputable section

/-! ### Constants and initial state (App.tsx lines 30-58) -/

def GRAVITY : ℝ := 0.15
def FRICTION : ℝ := 0.995
def BALL_RADIUS : ℝ := 10
def FLIPPER_SPEED : ℝ := 0.35

/-- Initial left flipper. -/
def fL : Flipper := ⟨120, 680, 70, 0.4, 0.4, FSide.left⟩

/-- Initial right flipper. -/
def fR : Flipper := ⟨280, 680, 70, Real.pi - 0.4, Real.pi - 0.4, FSide.right⟩

/-- The six bumpers (positions, radii and point values from App.tsx 51-58). -/
def initBumpers : List Bumper :=
  [⟨200, 200, 30, 100, false⟩, ⟨120, 300, 25, 75, false⟩,
   ⟨280, 300, 25, 75, false⟩, ⟨200, 400, 20, 50, false⟩,
   ⟨100, 450, 20, 50, false⟩, ⟨300, 450, 20, 50, false⟩]

/-- The state on first load, given the high score h0 the initializer produced
(also recorded as the currently stored value). -/
def initS (h0 : ℤ) : GameS :=
  { ball := ⟨380, 700, 0, 0, BALL_RADIUS⟩
    flippers := [fL, fR]
    bumpers := initBumpers
    score := 0
    highScore := h0
    ballsLeft := 3
    gameState := GState.ready
    launchPower := 0
    trail := []
    keys := ⟨false, false, false⟩
    stored := h0 }

/-! ### Geometry helpers shared by the flipper and gutter checks -/

/-- JavaScript Math.atan2(y, x): the argument of the complex number x + y·i.
Both land in (-π, π] and both send (0, 0) to 0. -/
def atan2 (y x : ℝ) : ℝ := Complex.arg ⟨x, y⟩

/-- The segment-projection denominator dx·dx + dy·dy of the source's
closest-point computations (App.tsx lines 198 and 222). -/
def segDenom (x1 y1 x2 y2 : ℝ) : ℝ :=
  (x2 - x1) * (x2 - x1) + (y2 - y1) * (y2 - y1)

/-- The clamped parametric position of the projection of (px, py) onto the
segment (x1,y1)-(x2,y2): `Math.max(0, Math.min(1, ((p-a)·d) / (d·d)))`. -/
def segParam (x1 y1 x2 y2 px py : ℝ) : ℝ :=
  max 0 (min 1 (((px - x1) * (x2 - x1) + (py - y1) * (y2 - y1)) /
    segDenom x1 y1 x2 y2))

/-- The closest point of the segment (x1,y1)-(x2,y2) to (px, py), by the
clamped parametric projection. -/
def segClosest (x1 y1 x2 y2 px py : ℝ) : ℝ × ℝ :=
  (x1 + segParam x1 y1 x2 y2 px py * (x2 - x1),
   y1 + segParam x1 y1 x2 y2 px py * (y2 - y1))

/-! ### Physics and collision phases of one playing tick -/

/-- Gravity, friction and explicit Euler integration (App.tsx 146-151). -/
def applyPhysics (b : Ball) : Ball :=
  let vy1 := (b.vy + GRAVITY) * FRICTION
  let vx1 := b.vx * FRICTION
  { b with vx := vx1, vy := vy1, x := b.x + vx1, y := b.y + vy1 }

/-- Trail update (App.tsx 153-156): push the ball position at alpha 1, shift
the oldest point out when more than 20 are held, then fade every point. -/
def updateTrail (tr : List TrailPoint) (b : Ball) : List TrailPoint :=
  let t1 := tr ++ [⟨b.x, b.y, 1⟩]
  let t2 := if 20 < t1.length then t1.tail else t1
  t2.map fun p => { p with alpha := p.alpha * 0.9 }

/-- The three straight-wall checks, in source order (App.tsx 158-170). -/
def wallStep (b0 : Ball) : Ball :=
  let b1 :=
    if b0.x - b0.radius < 20 then
      { b0 with x := 20 + b0.radius, vx := |b0.vx| * 0.8 }
    else b0
  let b2 :=
    if b1.x + b1.radius > 380 then
      { b1 with x := 380 - b1.radius, vx := -|b1.vx| * 0.8 }
    else b1
  if b2.y - b2.radius < 20 then
    { b2 with y := 20 + b2.radius, vy := |b2.vy| * 0.8 }
  else b2

/-- One bumper check (body of the forEach at App.tsx 172-189): on overlap the
ball is relaunched along the contact angle at max(speed·1.2, 8), repositioned
just outside, the bumper is flagged hit, and the bumper's points are awarded
(the returned ℤ is the score increment; the 100 ms hit-clearing timer and the
15 particles are cosmetic and unmodeled). -/
def resolveBumper (b : Ball) (bu : Bumper) : Ball × Bumper × ℤ :=
  let dx := b.x - bu.x
  let dy := b.y - bu.y
  let dist := Real.sqrt (dx * dx + dy * dy)
  if dist < b.radius + bu.radius then
    let angle := atan2 dy dx
    let speed := Real.sqrt (b.vx * b.vx + b.vy * b.vy)
    let m := max (speed * 1.2) 8
    ({ b with
        vx := Real.cos angle * m
        vy := Real.sin angle * m
        x := bu.x + Real.cos angle * (b.radius + bu.radius + 1)
        y := bu.y + Real.sin angle * (b.radius + bu.radius + 1) },
     { bu with hit := true }, bu.points)
  else (b, bu, 0)

/-- Folding one bumper into the running (ball, processed bumpers, score). -/
def bumperFold (acc : Ball × List Bumper × ℤ) (bu : Bumper) :
    Ball × List Bumper × ℤ :=
  let r := resolveBumper acc.1 bu
  (r.1, acc.2.1 ++ [r.2.1], acc.2.2 + r.2.2)

/-- The whole bumper pass, in list order. -/
def bumperPhase (b : Ball) (bus : List Bumper) (sc : ℤ) :
    Ball × List Bumper × ℤ :=
  bus.foldl bumperFold (b, [], sc)

/-- The x coordinate of a flipper's tip (App.tsx 193). -/
def flipperEndX (f : Flipper) : ℝ := f.x + Real.cos f.angle * f.length

/-- The y coordinate of a flipper's tip (App.tsx 194). -/
def flipperEndY (f : Flipper) : ℝ := f.y + Real.sin f.angle * f.length

/-- One flipper check (body of the forEach at App.tsx 192-216): when the ball
is within radius+8 of the segment's closest point, boost it along the contact
normal at 15 (flipper swinging, |target − angle| > 0.1) or 5 (at rest), bias
the vertical component by −3, and reposition it radius+10 out. -/
def resolveFlipper (b : Ball) (f : Flipper) : Ball :=
  let c := segClosest f.x f.y (flipperEndX f) (flipperEndY f) b.x b.y
  let distX := b.x - c.1
  let distY := b.y - c.2
  let dist := Real.sqrt (distX * distX + distY * distY)
  if dist < b.radius + 8 then
    let normalAngle := atan2 distY distX
    let boost : ℝ := if 0.1 < |f.targetAngle - f.angle| then 15 else 5
    { b with
      vx := Real.cos normalAngle * boost
      vy := Real.sin normalAngle * boost - 3
      x := c.1 + Real.cos normalAngle * (b.radius + 10)
      y := c.2 + Real.sin normalAngle * (b.radius + 10) }
  else b

/-- One angled gutter-wall check (checkAngledWall, App.tsx 218-237): margin
radius+3, restitution 0.7 along the new normal, reposition radius+5 out. -/
def checkAngledWall (x1 y1 x2 y2 : ℝ) (b : Ball) : Ball :=
  let c := segClosest x1 y1 x2 y2 b.x b.y
  let distX := b.x - c.1
  let distY := b.y - c.2
  let dist := Real.sqrt (distX * distX + distY * distY)
  if dist < b.radius + 3 then
    let normalAngle := atan2 distY distX
    let speed := Real.sqrt (b.vx * b.vx + b.vy * b.vy)
    { b with
      vx := Real.cos normalAngle * speed * 0.7
      vy := Real.sin normalAngle * speed * 0.7
      x := c.1 + Real.cos normalAngle * (b.radius + 5)
      y := c.2 + Real.sin normalAngle * (b.radius + 5) }
  else b

/-! ### Tick assembly (the gameLoop body, App.tsx 124-259) -/

/-- Launch-power charging (App.tsx 129-132): while launching with space held,
launchPower rises by 2 per tick, clamped at 100. -/
def launchPowerStep (s : GameS) : GameS :=
  if s.gameState = GState.launching ∧ s.keys.space = true then
    { s with launchPower := min (s.launchPower + 2) 100 }
  else s

/-- Per-tick flipper controller (App.tsx 134-143): pick the target angle from
the held keys, then ease the angle 35% of the way toward it. -/
def updateFlipper (ks : Keys) (f : Flipper) : Flipper :=
  let target : ℝ :=
    match f.side with
    | FSide.left => if ks.leftKey then -0.5 else 0.4
    | FSide.right => if ks.rightKey then Real.pi + 0.5 else Real.pi - 0.4
  let diff := target - f.angle
  { f with targetAngle := target, angle := f.angle + diff * FLIPPER_SPEED }

/-- Both flippers updated, every tick regardless of phase. -/
def flipperStep (s : GameS) : GameS :=
  { s with flippers := s.flippers.map (updateFlipper s.keys) }

/-- Integration, trail, and the five collision checks of a playing tick, in
source order: side walls, top wall, bumpers, flippers, angled gutters. -/
def collisionPhase (s : GameS) : GameS :=
  let b1 := applyPhysics s.ball
  let tr1 := updateTrail s.trail b1
  let b2 := wallStep b1
  let bp := bumperPhase b2 s.bumpers s.score
  let b3 := s.flippers.foldl resolveFlipper bp.1
  let b4 := checkAngledWall 20 550 100 650 b3
  let b5 := checkAngledWall 380 550 300 650 b4
  { s with ball := b5, trail := tr1, bumpers := bp.2.1, score := bp.2.2 }

/-- The ball at the launch position, as resetBall builds it (App.tsx 63-67). -/
def launchBall : Ball := ⟨380, 650, 0, 0, BALL_RADIUS⟩

/-- Ball-lost bookkeeping (App.tsx 242-258): below y = 780 a life is spent;
at zero or fewer lives the game ends and the high score is raised and
persisted, otherwise resetBall arms a new ball. -/
def ballLostStep (s : GameS) : GameS :=
  if 780 < s.ball.y then
    let newBalls := s.ballsLeft - 1
    if newBalls ≤ 0 then
      let newHigh := max s.highScore s.score
      { s with ballsLeft := newBalls, gameState := GState.gameover,
               highScore := newHigh, stored := newHigh }
    else
      { s with ballsLeft := newBalls, ball := launchBall,
               gameState := GState.launching, launchPower := 0 }
  else s

/-- Everything a playing tick does after the flipper controller. -/
def playingStep (s : GameS) : GameS := ballLostStep (collisionPhase s)

/-- One full tick of the gameLoop: launch charging, flipper easing, then the
physics/collision/ball-lost pipeline when (and only when) playing. -/
def tick (s : GameS) : GameS :=
  let s1 := launchPowerStep s
  let s2 := flipperStep s1
  if s2.gameState = GState.playing then playingStep s2 else s2

/-! ### Input handlers (App.tsx 90-114) -/

/-- Record one key's membership in the held-key set. -/
def setKey (ks : Keys) (k : Key) (v : Bool) : Keys :=
  match k with
  | Key.space => { ks with space := v }
  | Key.leftFlip => { ks with leftKey := v }
  | Key.rightFlip => { ks with rightKey := v }

/-- startGame (App.tsx 69-73): zero the score, restock three balls, and arm a
fresh ball at the launch position. -/
def startGame (s : GameS) : GameS :=
  { s with score := 0, ballsLeft := 3, ball := launchBall,
           gameState := GState.launching, launchPower := 0 }

/-- handleKeyDown (App.tsx 91-99): remember the key; space starts (or
restarts) the game from the ready and gameover phases. -/
def keydown (k : Key) (s : GameS) : GameS :=
  let s1 := { s with keys := setKey s.keys k true }
  if k = Key.space ∧ (s.gameState = GState.ready ∨ s.gameState = GState.gameover)
  then startGame s1 else s1

/-- handleKeyUp (App.tsx 100-107): forget the key; releasing space while
launching with charged power fires the ball (vy = −power·0.3, vx = −2) and
enters play. -/
def keyup (k : Key) (s : GameS) : GameS :=
  let s1 := { s with keys := setKey s.keys k false }
  if k = Key.space ∧ s.gameState = GState.launching ∧ 0 < s.launchPower then
    { s1 with ball := { s1.ball with vy := -s.launchPower * 0.3, vx := -2 },
              gameState := GState.playing }
  else s1

/-- Whether the tick starting from s detects a lost ball: the state is
playing and the post-collision ball sits below y = 780. -/
def ballLostIn (s : GameS) : Prop :=
  s.gameState = GState.playing ∧
    780 < (collisionPhase (flipperStep (launchPowerStep s))).ball.y

/-- A state the program can actually be in: the initial state for some loaded
high score, closed under ticks and the two key handlers. -/
inductive Reachable : GameS → Prop where
  | init (h0 : ℤ) : Reachable (initS h0)
  | tick {s : GameS} : Reachable s → Reachable (tick s)
  | keydown {s : GameS} (k : Key) : Reachable s → Reachable (keydown k s)
  | keyup {s : GameS} (k : Key) : Reachable s → Reachable (keyup k s)

/-- A playing state that one tick later ends with the ball left of the left
wall band: the ball is about to drift into the left gutter's upper corner. -/
def gutterState : GameS :=
  { initS 0 with gameState := GState.playing,
                 ball := ⟨30, 2279403 / 4000, 0, 0, 10⟩ }

/-- A playing state whose ball reaches the left wall while moving away from
it (positive vx), exercising the wall check's abs-based restitution. -/
def awayState : GameS :=
  { initS 0 with gameState := GState.playing,
                 ball := ⟨20, 100, 5, 0, 10⟩ }

/-- A resting ball overlapping the topmost bumper. -/
def restBall : Ball := ⟨200, 161, 0, 0, 10⟩

/-- The topmost bumper, as in initBumpers. -/
def topBumper : Bumper := ⟨200, 200, 30, 100, false⟩

/-- A resting ball sitting on a test flipper's pivot. -/
def pivotBall : Ball := ⟨120, 680, 0, 0, 10⟩

/-- A flipper lying flat (angle 0) with matching target. -/
def flatFlipper : Flipper := ⟨120, 680, 70, 0, 0, FSide.left⟩

/-- A playing state on its last ball, with the ball already past y = 780. -/
def lostState : GameS :=
  { initS 0 with gameState := GState.playing, ballsLeft := 1, score := 42,
                 highScore := 10, ball := ⟨380, 785, 0, 0, 10⟩ }

/-- A launching state with space held and no charge yet. -/
def chargeState : GameS :=
  { initS 0 with gameState := GState.launching, keys := ⟨true, false, false⟩ }

/-- A launching state already charged to 40. -/
def releaseState : GameS :=
  { initS 0 with gameState := GState.launching, launchPower := 40 }

/-- An otherwise-initial state put into play. -/
def playState : GameS := { initS 0 with gameState := GState.playing }

end

/-! ### Geometry helper lemmas -/

theorem atan2_sin (y x : ℝ) :
    Real.sin (atan2 y x) = y / Real.sqrt (x * x + y * y) := by
  rw [atan2, Complex.sin_arg, Complex.abs_apply, Complex.normSq_mk]

theorem atan2_cos (y x : ℝ) (h : ¬(x = 0 ∧ y = 0)) :
    Real.cos (atan2 y x) = x / Real.sqrt (x * x + y * y) := by
  have hz : (⟨x, y⟩ : ℂ) ≠ 0 := by
    simp only [ne_eq, Complex.ext_iff, Complex.zero_re, Complex.zero_im]
    tauto
  rw [atan2, Complex.cos_arg hz, Complex.abs_apply, Complex.normSq_mk]

theorem sqrt_scale (θ m : ℝ) :
    Real.sqrt (Real.cos θ * m * (Real.cos θ * m) +
      Real.sin θ * m * (Real.sin θ * m)) = |m| := by
  have h : Real.cos θ * m * (Real.cos θ * m) +
      Real.sin θ * m * (Real.sin θ * m) = m ^ 2 := by
    linear_combination m ^ 2 * Real.sin_sq_add_cos_sq θ
  rw [h, Real.sqrt_sq_eq_abs]

theorem segParam_nonneg (x1 y1 x2 y2 px py : ℝ) :
    0 ≤ segParam x1 y1 x2 y2 px py := le_max_left 0 _

theorem segParam_le_one (x1 y1 x2 y2 px py : ℝ) :
    segParam x1 y1 x2 y2 px py ≤ 1 :=
  max_le (by norm_num) (min_le_left 1 _)

theorem segClosest_y_ge (x1 y1 x2 y2 px py : ℝ) (h : y1 ≤ y2) :
    y1 ≤ (segClosest x1 y1 x2 y2 px py).2 := by
  have h0 : 0 ≤ segParam x1 y1 x2 y2 px py * (y2 - y1) :=
    mul_nonneg (segParam_nonneg x1 y1 x2 y2 px py) (by linarith)
  simp only [segClosest]
  linarith

theorem segClosest_x_ge (x1 y1 x2 y2 px py : ℝ) (h : x2 ≤ x1) :
    x2 ≤ (segClosest x1 y1 x2 y2 px py).1 := by
  have h1 : segParam x1 y1 x2 y2 px py ≤ 1 := segParam_le_one x1 y1 x2 y2 px py
  have h0 : 0 ≤ (x1 - x2) * (1 - segParam x1 y1 x2 y2 px py) :=
    mul_nonneg (by linarith) (by linarith)
  simp only [segClosest]
  nlinarith

/-- A lower bound on the squared point-to-closest-point distance from a gap in
the y coordinate alone. -/
theorem sq_le_dist2_of_y_gap (px py cx cy m : ℝ) (hm : 0 ≤ m)
    (h : m ≤ cy - py) :
    m ^ 2 ≤ (px - cx) * (px - cx) + (py - cy) * (py - cy) := by
  nlinarith [sq_nonneg (px - cx), mul_le_mul h h hm (by linarith)]

/-- A lower bound on the squared point-to-closest-point distance from a gap in
the x coordinate alone. -/
theorem sq_le_dist2_of_x_gap (px py cx cy m : ℝ) (hm : 0 ≤ m)
    (h : m ≤ cx - px) :
    m ^ 2 ≤ (px - cx) * (px - cx) + (py - cy) * (py - cy) := by
  nlinarith [sq_nonneg (py - cy), mul_le_mul h h hm (by linarith)]

/-! ### Collision-miss lemmas -/

theorem resolveBumper_miss (b : Ball) (bu : Bumper)
    (h : (b.radius + bu.radius) ^ 2 ≤
      (b.x - bu.x) * (b.x - bu.x) + (b.y - bu.y) * (b.y - bu.y)) :
    resolveBumper b bu = (b, bu, 0) := by
  simp only [resolveBumper]
  rw [if_neg (not_lt.mpr (Real.le_sqrt_of_sq_le h))]

theorem resolveFlipper_miss (b : Ball) (f : Flipper)
    (h : (b.radius + 8) ^ 2 ≤
      (b.x - (segClosest f.x f.y (flipperEndX f) (flipperEndY f) b.x b.y).1) *
        (b.x - (segClosest f.x f.y (flipperEndX f) (flipperEndY f) b.x b.y).1) +
      (b.y - (segClosest f.x f.y (flipperEndX f) (flipperEndY f) b.x b.y).2) *
        (b.y - (segClosest f.x f.y (flipperEndX f) (flipperEndY f) b.x b.y).2)) :
    resolveFlipper b f = b := by
  simp only [resolveFlipper]
  rw [if_neg (not_lt.mpr (Real.le_sqrt_of_sq_le h))]

theorem checkAngledWall_miss (x1 y1 x2 y2 : ℝ) (b : Ball)
    (h : (b.radius + 3) ^ 2 ≤
      (b.x - (segClosest x1 y1 x2 y2 b.x b.y).1) *
        (b.x - (segClosest x1 y1 x2 y2 b.x b.y).1) +
      (b.y - (segClosest x1 y1 x2 y2 b.x b.y).2) *
        (b.y - (segClosest x1 y1 x2 y2 b.x b.y).2)) :
    checkAngledWall x1 y1 x2 y2 b = b := by
  simp only [checkAngledWall]
  rw [if_neg (not_lt.mpr (Real.le_sqrt_of_sq_le h))]

/-- A flipper whose segment lies at or above its pivot height misses any ball
at least radius+8 above the pivot (both flippers hang near y = 680, so balls
far above them are never touched). -/
theorem resolveFlipper_missAbove (b : Ball) (f : Flipper)
    (hsin : 0 ≤ Real.sin f.angle * f.length)
    (hm : 0 ≤ b.radius + 8) (hgap : b.radius + 8 ≤ f.y - b.y) :
    resolveFlipper b f = b := by
  apply resolveFlipper_miss
  apply sq_le_dist2_of_y_gap _ _ _ _ _ hm
  have hy : f.y ≤ (segClosest f.x f.y (flipperEndX f) (flipperEndY f) b.x b.y).2 := by
    apply segClosest_y_ge
    simp only [flipperEndY]
    linarith
  linarith

/-! ### Which fields each phase leaves alone -/

@[simp] theorem launchPowerStep_ball (s : GameS) :
    (launchPowerStep s).ball = s.ball := by
  unfold launchPowerStep; split <;> rfl

@[simp] theorem launchPowerStep_gameState (s : GameS) :
    (launchPowerStep s).gameState = s.gameState := by
  unfold launchPowerStep; split <;> rfl

@[simp] theorem launchPowerStep_ballsLeft (s : GameS) :
    (launchPowerStep s).ballsLeft = s.ballsLeft := by
  unfold launchPowerStep; split <;> rfl

@[simp] theorem launchPowerStep_score (s : GameS) :
    (launchPowerStep s).score = s.score := by
  unfold launchPowerStep; split <;> rfl

@[simp] theorem launchPowerStep_highScore (s : GameS) :
    (launchPowerStep s).highScore = s.highScore := by
  unfold launchPowerStep; split <;> rfl

@[simp] theorem launchPowerStep_keys (s : GameS) :
    (launchPowerStep s).keys = s.keys := by
  unfold launchPowerStep; split <;> rfl

@[simp] theorem launchPowerStep_flippers (s : GameS) :
    (launchPowerStep s).flippers = s.flippers := by
  unfold launchPowerStep; split <;> rfl

@[simp] theorem launchPowerStep_bumpers (s : GameS) :
    (launchPowerStep s).bumpers = s.bumpers := by
  unfold launchPowerStep; split <;> rfl

@[simp] theorem launchPowerStep_trail (s : GameS) :
    (launchPowerStep s).trail = s.trail := by
  unfold launchPowerStep; split <;> rfl

@[simp] theorem launchPowerStep_stored (s : GameS) :
    (launchPowerStep s).stored = s.stored := by
  unfold launchPowerStep; split <;> rfl

@[simp] theorem flipperStep_ball (s : GameS) : (flipperStep s).ball = s.ball := rfl

@[simp] theorem flipperStep_gameState (s : GameS) :
    (flipperStep s).gameState = s.gameState := rfl

@[simp] theorem flipperStep_ballsLeft (s : GameS) :
    (flipperStep s).ballsLeft = s.ballsLeft := rfl

@[simp] theorem flipperStep_score (s : GameS) : (flipperStep s).score = s.score := rfl

@[simp] theorem flipperStep_highScore (s : GameS) :
    (flipperStep s).highScore = s.highScore := rfl

@[simp] theorem flipperStep_keys (s : GameS) : (flipperStep s).keys = s.keys := rfl

@[simp] theorem flipperStep_bumpers (s : GameS) :
    (flipperStep s).bumpers = s.bumpers := rfl

@[simp] theorem flipperStep_trail (s : GameS) : (flipperStep s).trail = s.trail := rfl

@[simp] theorem flipperStep_launchPower (s : GameS) :
    (flipperStep s).launchPower = s.launchPower := rfl

@[simp] theorem flipperStep_stored (s : GameS) : (flipperStep s).stored = s.stored := rfl

@[simp] theorem collisionPhase_gameState (s : GameS) :
    (collisionPhase s).gameState = s.gameState := rfl

@[simp] theorem collisionPhase_ballsLeft (s : GameS) :
    (collisionPhase s).ballsLeft = s.ballsLeft := rfl

@[simp] theorem collisionPhase_highScore (s : GameS) :
    (collisionPhase s).highScore = s.highScore := rfl

@[simp] theorem collisionPhase_launchPower (s : GameS) :
    (collisionPhase s).launchPower = s.launchPower := rfl

@[simp] theorem collisionPhase_keys (s : GameS) :
    (collisionPhase s).keys = s.keys := rfl

@[simp] theorem collisionPhase_flippers (s : GameS) :
    (collisionPhase s).flippers = s.flippers := rfl

@[simp] theorem collisionPhase_stored (s : GameS) :
    (collisionPhase s).stored = s.stored := rfl

@[simp] theorem ballLostStep_score (s : GameS) :
    (ballLostStep s).score = s.score := by
  simp only [ballLostStep]; split <;> [skip; rfl]; split <;> rfl

@[simp] theorem ballLostStep_keys (s : GameS) :
    (ballLostStep s).keys = s.keys := by
  simp only [ballLostStep]; split <;> [skip; rfl]; split <;> rfl

@[simp] theorem ballLostStep_flippers (s : GameS) :
    (ballLostStep s).flippers = s.flippers := by
  simp only [ballLostStep]; split <;> [skip; rfl]; split <;> rfl

@[simp] theorem ballLostStep_bumpers (s : GameS) :
    (ballLostStep s).bumpers = s.bumpers := by
  simp only [ballLostStep]; split <;> [skip; rfl]; split <;> rfl

@[simp] theorem ballLostStep_trail (s : GameS) :
    (ballLostStep s).trail = s.trail := by
  simp only [ballLostStep]; split <;> [skip; rfl]; split <;> rfl

/-- The ballsLeft bookkeeping of the ball-lost check, as one equation. -/
theorem ballLostStep_ballsLeft (s : GameS) :
    (ballLostStep s).ballsLeft =
      if 780 < s.ball.y then s.ballsLeft - 1 else s.ballsLeft := by
  simp only [ballLostStep]
  split
  · split <;> rfl
  · rfl

/-! ### Tick dispatch -/

theorem tick_of_playing (s : GameS) (h : s.gameState = GState.playing) :
    tick s = playingStep (flipperStep (launchPowerStep s)) := by
  simp only [tick]
  rw [if_pos]
  simp [h]

theorem tick_of_not_playing (s : GameS) (h : s.gameState ≠ GState.playing) :
    tick s = flipperStep (launchPowerStep s) := by
  simp only [tick]
  rw [if_neg]
  simp [h]

theorem launchPowerStep_of_not_launching (s : GameS)
    (h : s.gameState ≠ GState.launching) : launchPowerStep s = s := by
  unfold launchPowerStep
  rw [if_neg]
  tauto

/-! ### Claim C9 -/

/-- Claim C9: the segment-projection denominators of the collision resolver
are strictly positive constants — 4900 = 70² for a flipper segment at any
angle, and 16400 for each fixed angled gutter wall — so the division in the
clamped parametric projection never divides by zero. -/
theorem projection_denominators_positive (f : Flipper) (h : f.length = 70) :
    segDenom f.x f.y (flipperEndX f) (flipperEndY f) = 4900 ∧
    (0 : ℝ) < segDenom f.x f.y (flipperEndX f) (flipperEndY f) ∧
    segDenom 20 550 100 650 = 16400 ∧ (0 : ℝ) < segDenom 20 550 100 650 ∧
    segDenom 380 550 300 650 = 16400 ∧ (0 : ℝ) < segDenom 380 550 300 650 := by
  have key : segDenom f.x f.y (flipperEndX f) (flipperEndY f) = 4900 := by
    simp only [segDenom, flipperEndX, flipperEndY, h]
    linear_combination (4900 : ℝ) * Real.sin_sq_add_cos_sq f.angle
  refine ⟨key, by rw [key]; norm_num, by norm_num [segDenom],
    by norm_num [segDenom], by norm_num [segDenom], by norm_num [segDenom]⟩

/-- Witness for C9 at the initial left flipper. -/
theorem projection_denominators_positive_witness :
    fL.length = 70 ∧
    (segDenom fL.x fL.y (flipperEndX fL) (flipperEndY fL) = 4900 ∧
     (0 : ℝ) < segDenom fL.x fL.y (flipperEndX fL) (flipperEndY fL) ∧
     segDenom 20 550 100 650 = 16400 ∧ (0 : ℝ) < segDenom 20 550 100 650 ∧
     segDenom 380 550 300 650 = 16400 ∧ (0 : ℝ) < segDenom 380 550 300 650) :=
  ⟨rfl, projection_denominators_positive fL rfl⟩

/-! ### Claim C8 -/

/-- Claim C8 (code bug): the highScore initializer does not sanitize the
stored value.  A missing value does load as 0, but a malformed (non-numeric)
stored string parses to NaN (none) — parseInt has no fallback — and a
negative numeral loads as a negative number, so loading does not always yield
a non-negative integer, contrary to the stated error handling. -/
theorem loadHighScore_unsanitized :
    loadHighScore none = some 0 ∧
    loadHighScore (some [ 'a', 'b', 'c' ]) = none ∧
    ¬ loadHighScore (some [ 'a', 'b', 'c' ]) = some 0 ∧
    loadHighScore (some [ '-', '5' ]) = some (-5) := by
  refine ⟨rfl, ?_, ?_, ?_⟩ <;> decide

/-! ### Claims C1 and C2 -/

theorem sqrt_cos_sin_sq (θ m : ℝ) :
    Real.sqrt ((Real.cos θ * m) ^ 2 + (Real.sin θ * m) ^ 2) = |m| := by
  have h : (Real.cos θ * m) ^ 2 + (Real.sin θ * m) ^ 2 = m ^ 2 := by
    linear_combination m ^ 2 * Real.sin_sq_add_cos_sq θ
  rw [h, Real.sqrt_sq_eq_abs]

/-- Claim C1: a ball overlapping a bumper is relaunched along the contact
angle atan2(ball − bumper) with speed exactly max(speed·1.2, 8), repositioned
at distance radius+bumper.radius+1 from the bumper's center (just outside the
overlap radius), the bumper is flagged hit, and exactly that bumper's points
are awarded for the detected overlap; a resting ball leaves at speed 8. -/
theorem bumper_resolution (b : Ball) (bu : Bumper)
    (h : Real.sqrt ((b.x - bu.x) * (b.x - bu.x) + (b.y - bu.y) * (b.y - bu.y)) <
      b.radius + bu.radius) :
    (resolveBumper b bu).1.vx = Real.cos (atan2 (b.y - bu.y) (b.x - bu.x)) *
      max (Real.sqrt (b.vx * b.vx + b.vy * b.vy) * 1.2) 8 ∧
    (resolveBumper b bu).1.vy = Real.sin (atan2 (b.y - bu.y) (b.x - bu.x)) *
      max (Real.sqrt (b.vx * b.vx + b.vy * b.vy) * 1.2) 8 ∧
    Real.sqrt ((resolveBumper b bu).1.vx ^ 2 + (resolveBumper b bu).1.vy ^ 2) =
      max (Real.sqrt (b.vx * b.vx + b.vy * b.vy) * 1.2) 8 ∧
    (resolveBumper b bu).1.x = bu.x + Real.cos (atan2 (b.y - bu.y) (b.x - bu.x)) *
      (b.radius + bu.radius + 1) ∧
    (resolveBumper b bu).1.y = bu.y + Real.sin (atan2 (b.y - bu.y) (b.x - bu.x)) *
      (b.radius + bu.radius + 1) ∧
    Real.sqrt (((resolveBumper b bu).1.x - bu.x) ^ 2 +
      ((resolveBumper b bu).1.y - bu.y) ^ 2) = b.radius + bu.radius + 1 ∧
    b.radius + bu.radius < b.radius + bu.radius + 1 ∧
    (resolveBumper b bu).2.2 = bu.points ∧
    (resolveBumper b bu).2.1.hit = true ∧
    (b.vx = 0 → b.vy = 0 →
      Real.sqrt ((resolveBumper b bu).1.vx ^ 2 + (resolveBumper b bu).1.vy ^ 2) = 8) := by
  have h0 : 0 ≤ Real.sqrt ((b.x - bu.x) * (b.x - bu.x) + (b.y - bu.y) * (b.y - bu.y)) :=
    Real.sqrt_nonneg _
  have hd : 0 < b.radius + bu.radius + 1 := by linarith
  have hM : (0:ℝ) ≤ max (Real.sqrt (b.vx * b.vx + b.vy * b.vy) * 1.2) 8 :=
    le_trans (by norm_num) (le_max_right _ 8)
  have hvx : (resolveBumper b bu).1.vx =
      Real.cos (atan2 (b.y - bu.y) (b.x - bu.x)) *
        max (Real.sqrt (b.vx * b.vx + b.vy * b.vy) * 1.2) 8 := by
    simp only [resolveBumper, if_pos h]
  have hvy : (resolveBumper b bu).1.vy =
      Real.sin (atan2 (b.y - bu.y) (b.x - bu.x)) *
        max (Real.sqrt (b.vx * b.vx + b.vy * b.vy) * 1.2) 8 := by
    simp only [resolveBumper, if_pos h]
  have hx : (resolveBumper b bu).1.x =
      bu.x + Real.cos (atan2 (b.y - bu.y) (b.x - bu.x)) * (b.radius + bu.radius + 1) := by
    simp only [resolveBumper, if_pos h]
  have hy : (resolveBumper b bu).1.y =
      bu.y + Real.sin (atan2 (b.y - bu.y) (b.x - bu.x)) * (b.radius + bu.radius + 1) := by
    simp only [resolveBumper, if_pos h]
  have hpts : (resolveBumper b bu).2.2 = bu.points := by
    simp only [resolveBumper, if_pos h]
  have hhit : (resolveBumper b bu).2.1.hit = true := by
    simp only [resolveBumper, if_pos h]
  have hspeed : Real.sqrt ((resolveBumper b bu).1.vx ^ 2 + (resolveBumper b bu).1.vy ^ 2) =
      max (Real.sqrt (b.vx * b.vx + b.vy * b.vy) * 1.2) 8 := by
    rw [hvx, hvy, sqrt_cos_sin_sq]
    exact abs_of_nonneg hM
  refine ⟨hvx, hvy, hspeed, hx, hy, ?_, by linarith, hpts, hhit, ?_⟩
  · rw [hx, hy,
      show bu.x + Real.cos (atan2 (b.y - bu.y) (b.x - bu.x)) *
          (b.radius + bu.radius + 1) - bu.x =
        Real.cos (atan2 (b.y - bu.y) (b.x - bu.x)) * (b.radius + bu.radius + 1)
        from by ring,
      show bu.y + Real.sin (atan2 (b.y - bu.y) (b.x - bu.x)) *
          (b.radius + bu.radius + 1) - bu.y =
        Real.sin (atan2 (b.y - bu.y) (b.x - bu.x)) * (b.radius + bu.radius + 1)
        from by ring,
      sqrt_cos_sin_sq]
    exact abs_of_nonneg hd.le
  · intro hvx0 hvy0
    rw [hspeed, hvx0, hvy0]
    norm_num

/-- Witness for C1: the resting ball at (200, 161) overlaps the topmost
bumper (center distance 39 < 40); it leaves at speed exactly 8 and the
resolution awards the bumper's 100 points. -/
theorem bumper_resolution_witness :
    Real.sqrt ((restBall.x - topBumper.x) * (restBall.x - topBumper.x) +
      (restBall.y - topBumper.y) * (restBall.y - topBumper.y)) <
      restBall.radius + topBumper.radius ∧
    Real.sqrt ((resolveBumper restBall topBumper).1.vx ^ 2 +
      (resolveBumper restBall topBumper).1.vy ^ 2) = 8 ∧
    (resolveBumper restBall topBumper).2.2 = 100 ∧
    (resolveBumper restBall topBumper).2.1.hit = true := by
  have harg : (restBall.x - topBumper.x) * (restBall.x - topBumper.x) +
      (restBall.y - topBumper.y) * (restBall.y - topBumper.y) = 39 ^ 2 := by
    simp only [restBall, topBumper]
    norm_num
  have hyp : Real.sqrt ((restBall.x - topBumper.x) * (restBall.x - topBumper.x) +
      (restBall.y - topBumper.y) * (restBall.y - topBumper.y)) <
      restBall.radius + topBumper.radius := by
    rw [harg, Real.sqrt_sq (by norm_num : (0:ℝ) ≤ 39)]
    simp only [restBall, topBumper]
    norm_num
  have main := bumper_resolution restBall topBumper hyp
  exact ⟨hyp, main.2.2.2.2.2.2.2.2.2 rfl rfl, main.2.2.2.2.2.2.2.1, main.2.2.2.2.2.2.2.2.1⟩

/-- Claim C2: when the ball is within radius+8 of a flipper segment's closest
point, the resolver sets the velocity along the contact normal at speed 15
(actively swinging flipper: |targetAngle − angle| > 0.1) or 5 (otherwise),
subtracts the constant 3 from the vertical component, and repositions the
ball at distance radius+10 from the closest point along the normal. -/
theorem flipper_resolution (b : Ball) (f : Flipper)
    (h : Real.sqrt
        ((b.x - (segClosest f.x f.y (flipperEndX f) (flipperEndY f) b.x b.y).1) *
          (b.x - (segClosest f.x f.y (flipperEndX f) (flipperEndY f) b.x b.y).1) +
         (b.y - (segClosest f.x f.y (flipperEndX f) (flipperEndY f) b.x b.y).2) *
          (b.y - (segClosest f.x f.y (flipperEndX f) (flipperEndY f) b.x b.y).2)) <
      b.radius + 8) :
    (resolveFlipper b f).vx =
      Real.cos (atan2 (b.y - (segClosest f.x f.y (flipperEndX f) (flipperEndY f) b.x b.y).2)
        (b.x - (segClosest f.x f.y (flipperEndX f) (flipperEndY f) b.x b.y).1)) *
        (if 0.1 < |f.targetAngle - f.angle| then (15:ℝ) else 5) ∧
    (resolveFlipper b f).vy =
      Real.sin (atan2 (b.y - (segClosest f.x f.y (flipperEndX f) (flipperEndY f) b.x b.y).2)
        (b.x - (segClosest f.x f.y (flipperEndX f) (flipperEndY f) b.x b.y).1)) *
        (if 0.1 < |f.targetAngle - f.angle| then (15:ℝ) else 5) - 3 ∧
    (resolveFlipper b f).x =
      (segClosest f.x f.y (flipperEndX f) (flipperEndY f) b.x b.y).1 +
        Real.cos (atan2 (b.y - (segClosest f.x f.y (flipperEndX f) (flipperEndY f) b.x b.y).2)
          (b.x - (segClosest f.x f.y (flipperEndX f) (flipperEndY f) b.x b.y).1)) *
          (b.radius + 10) ∧
    (resolveFlipper b f).y =
      (segClosest f.x f.y (flipperEndX f) (flipperEndY f) b.x b.y).2 +
        Real.sin (atan2 (b.y - (segClosest f.x f.y (flipperEndX f) (flipperEndY f) b.x b.y).2)
          (b.x - (segClosest f.x f.y (flipperEndX f) (flipperEndY f) b.x b.y).1)) *
          (b.radius + 10) ∧
    Real.sqrt (((resolveFlipper b f).x -
        (segClosest f.x f.y (flipperEndX f) (flipperEndY f) b.x b.y).1) ^ 2 +
      ((resolveFlipper b f).y -
        (segClosest f.x f.y (flipperEndX f) (flipperEndY f) b.x b.y).2) ^ 2) =
      b.radius + 10 ∧
    Real.sqrt ((resolveFlipper b f).vx ^ 2 + ((resolveFlipper b f).vy + 3) ^ 2) =
      (if 0.1 < |f.targetAngle - f.angle| then (15:ℝ) else 5) := by
  have h0 : 0 ≤ Real.sqrt
      ((b.x - (segClosest f.x f.y (flipperEndX f) (flipperEndY f) b.x b.y).1) *
        (b.x - (segClosest f.x f.y (flipperEndX f) (flipperEndY f) b.x b.y).1) +
       (b.y - (segClosest f.x f.y (flipperEndX f) (flipperEndY f) b.x b.y).2) *
        (b.y - (segClosest f.x f.y (flipperEndX f) (flipperEndY f) b.x b.y).2)) :=
    Real.sqrt_nonneg _
  have hr : (0:ℝ) < b.radius + 10 := by linarith
  have hbst : (0:ℝ) ≤ if 0.1 < |f.targetAngle - f.angle| then (15:ℝ) else 5 := by
    split <;> norm_num
  have hvx : (resolveFlipper b f).vx =
      Real.cos (atan2 (b.y - (segClosest f.x f.y (flipperEndX f) (flipperEndY f) b.x b.y).2)
        (b.x - (segClosest f.x f.y (flipperEndX f) (flipperEndY f) b.x b.y).1)) *
        (if 0.1 < |f.targetAngle - f.angle| then (15:ℝ) else 5) := by
    simp only [resolveFlipper, if_pos h]
  have hvy : (resolveFlipper b f).vy =
      Real.sin (atan2 (b.y - (segClosest f.x f.y (flipperEndX f) (flipperEndY f) b.x b.y).2)
        (b.x - (segClosest f.x f.y (flipperEndX f) (flipperEndY f) b.x b.y).1)) *
        (if 0.1 < |f.targetAngle - f.angle| then (15:ℝ) else 5) - 3 := by
    simp only [resolveFlipper, if_pos h]
  have hx : (resolveFlipper b f).x =
      (segClosest f.x f.y (flipperEndX f) (flipperEndY f) b.x b.y).1 +
        Real.cos (atan2 (b.y - (segClosest f.x f.y (flipperEndX f) (flipperEndY f) b.x b.y).2)
          (b.x - (segClosest f.x f.y (flipperEndX f) (flipperEndY f) b.x b.y).1)) *
          (b.radius + 10) := by
    simp only [resolveFlipper, if_pos h]
  have hy : (resolveFlipper b f).y =
      (segClosest f.x f.y (flipperEndX f) (flipperEndY f) b.x b.y).2 +
        Real.sin (atan2 (b.y - (segClosest f.x f.y (flipperEndX f) (flipperEndY f) b.x b.y).2)
          (b.x - (segClosest f.x f.y (flipperEndX f) (flipperEndY f) b.x b.y).1)) *
          (b.radius + 10) := by
    simp only [resolveFlipper, if_pos h]
  refine ⟨hvx, hvy, hx, hy, ?_, ?_⟩
  · rw [hx, hy]
    rw [show (segClosest f.x f.y (flipperEndX f) (flipperEndY f) b.x b.y).1 +
          Real.cos (atan2 (b.y - (segClosest f.x f.y (flipperEndX f) (flipperEndY f) b.x b.y).2)
            (b.x - (segClosest f.x f.y (flipperEndX f) (flipperEndY f) b.x b.y).1)) *
            (b.radius + 10) -
          (segClosest f.x f.y (flipperEndX f) (flipperEndY f) b.x b.y).1 =
        Real.cos (atan2 (b.y - (segClosest f.x f.y (flipperEndX f) (flipperEndY f) b.x b.y).2)
          (b.x - (segClosest f.x f.y (flipperEndX f) (flipperEndY f) b.x b.y).1)) *
          (b.radius + 10) from by ring,
      show (segClosest f.x f.y (flipperEndX f) (flipperEndY f) b.x b.y).2 +
          Real.sin (atan2 (b.y - (segClosest f.x f.y (flipperEndX f) (flipperEndY f) b.x b.y).2)
            (b.x - (segClosest f.x f.y (flipperEndX f) (flipperEndY f) b.x b.y).1)) *
            (b.radius + 10) -
          (segClosest f.x f.y (flipperEndX f) (flipperEndY f) b.x b.y).2 =
        Real.sin (atan2 (b.y - (segClosest f.x f.y (flipperEndX f) (flipperEndY f) b.x b.y).2)
          (b.x - (segClosest f.x f.y (flipperEndX f) (flipperEndY f) b.x b.y).1)) *
          (b.radius + 10) from by ring,
      sqrt_cos_sin_sq]
    exact abs_of_nonneg hr.le
  · rw [hvx, hvy]
    rw [show Real.sin (atan2 (b.y - (segClosest f.x f.y (flipperEndX f) (flipperEndY f) b.x b.y).2)
            (b.x - (segClosest f.x f.y (flipperEndX f) (flipperEndY f) b.x b.y).1)) *
          (if 0.1 < |f.targetAngle - f.angle| then (15:ℝ) else 5) - 3 + 3 =
        Real.sin (atan2 (b.y - (segClosest f.x f.y (flipperEndX f) (flipperEndY f) b.x b.y).2)
          (b.x - (segClosest f.x f.y (flipperEndX f) (flipperEndY f) b.x b.y).1)) *
          (if 0.1 < |f.targetAngle - f.angle| then (15:ℝ) else 5) from by ring,
      sqrt_cos_sin_sq]
    exact abs_of_nonneg hbst

/-- Witness for C2: a resting ball on the flat flipper's pivot is within the
radius+8 margin; the flipper is not swinging (target = angle), so the boost
is 5, and the ball ends up radius+10 from the closest point. -/
theorem flipper_resolution_witness :
    Real.sqrt
      ((pivotBall.x - (segClosest flatFlipper.x flatFlipper.y (flipperEndX flatFlipper)
          (flipperEndY flatFlipper) pivotBall.x pivotBall.y).1) *
        (pivotBall.x - (segClosest flatFlipper.x flatFlipper.y (flipperEndX flatFlipper)
          (flipperEndY flatFlipper) pivotBall.x pivotBall.y).1) +
       (pivotBall.y - (segClosest flatFlipper.x flatFlipper.y (flipperEndX flatFlipper)
          (flipperEndY flatFlipper) pivotBall.x pivotBall.y).2) *
        (pivotBall.y - (segClosest flatFlipper.x flatFlipper.y (flipperEndX flatFlipper)
          (flipperEndY flatFlipper) pivotBall.x pivotBall.y).2)) <
      pivotBall.radius + 8 ∧
    Real.sqrt (((resolveFlipper pivotBall flatFlipper).x -
        (segClosest flatFlipper.x flatFlipper.y (flipperEndX flatFlipper)
          (flipperEndY flatFlipper) pivotBall.x pivotBall.y).1) ^ 2 +
      ((resolveFlipper pivotBall flatFlipper).y -
        (segClosest flatFlipper.x flatFlipper.y (flipperEndX flatFlipper)
          (flipperEndY flatFlipper) pivotBall.x pivotBall.y).2) ^ 2) =
      pivotBall.radius + 10 ∧
    Real.sqrt ((resolveFlipper pivotBall flatFlipper).vx ^ 2 +
      ((resolveFlipper pivotBall flatFlipper).vy + 3) ^ 2) =
      (if 0.1 < |flatFlipper.targetAngle - flatFlipper.angle| then (15:ℝ) else 5) ∧
    (if 0.1 < |flatFlipper.targetAngle - flatFlipper.angle| then (15:ℝ) else 5) = 5 := by
  have hc : segClosest flatFlipper.x flatFlipper.y (flipperEndX flatFlipper)
      (flipperEndY flatFlipper) pivotBall.x pivotBall.y = (120, 680) := by
    simp only [flatFlipper, pivotBall, flipperEndX, flipperEndY, segClosest, segParam,
      segDenom]
    norm_num [Real.cos_zero, Real.sin_zero]
  have hyp : Real.sqrt
      ((pivotBall.x - (segClosest flatFlipper.x flatFlipper.y (flipperEndX flatFlipper)
          (flipperEndY flatFlipper) pivotBall.x pivotBall.y).1) *
        (pivotBall.x - (segClosest flatFlipper.x flatFlipper.y (flipperEndX flatFlipper)
          (flipperEndY flatFlipper) pivotBall.x pivotBall.y).1) +
       (pivotBall.y - (segClosest flatFlipper.x flatFlipper.y (flipperEndX flatFlipper)
          (flipperEndY flatFlipper) pivotBall.x pivotBall.y).2) *
        (pivotBall.y - (segClosest flatFlipper.x flatFlipper.y (flipperEndX flatFlipper)
          (flipperEndY flatFlipper) pivotBall.x pivotBall.y).2)) <
      pivotBall.radius + 8 := by
    rw [hc]
    simp only [pivotBall]
    norm_num
  have main := flipper_resolution pivotBall flatFlipper hyp
  refine ⟨hyp, main.2.2.2.2.1, main.2.2.2.2.2, ?_⟩
  have hno : ¬ ((0.1:ℝ) < |flatFlipper.targetAngle - flatFlipper.angle|) := by
    simp only [flatFlipper]
    norm_num
  rw [if_neg hno]

/-! ### Claims C6 and C3 (wall phase) -/

/-- Claim C6 (amended): a wall penetration clamps the position to that
boundary and sets the velocity component along the violated axis to 0.8
times its absolute value, directed away from the wall — which equals the
reversed component whenever the ball was moving toward the wall; in
particular a ball arriving at the left wall with vx = −10 leaves with +8. -/
theorem wall_restitution (b : Ball) (hr : b.radius = 10) :
    (b.x - b.radius < 20 →
      (wallStep b).x = 20 + b.radius ∧ (wallStep b).vx = |b.vx| * 0.8) ∧
    (380 < b.x + b.radius →
      (wallStep b).x = 380 - b.radius ∧ (wallStep b).vx = -|b.vx| * 0.8) ∧
    (b.y - b.radius < 20 →
      (wallStep b).y = 20 + b.radius ∧ (wallStep b).vy = |b.vy| * 0.8) := by
  obtain ⟨x, y, vx, vy, r⟩ := b
  simp only at hr
  subst hr
  refine ⟨?_, ?_, ?_⟩ <;> intro h1 <;> simp only [wallStep] <;>
    split_ifs <;> simp only at * <;>
    first
      | (exfalso; linarith)
      | (refine ⟨?_, ?_⟩ <;> first | rfl | (norm_num; done) | linarith)

/-- Witness for C6: the spec's restitution scenario — vx = −10 at the left
wall comes back as +8 after the clamp. -/
theorem wall_restitution_witness :
    (wallStep ⟨20, 400, -10, 0, 10⟩).x = 20 + 10 ∧
    (wallStep ⟨20, 400, -10, 0, 10⟩).vx = |(-10:ℝ)| * 0.8 ∧
    (wallStep ⟨20, 400, -10, 0, 10⟩).vx = 8 := by
  have main := (wall_restitution ⟨20, 400, -10, 0, 10⟩ rfl).1 (by norm_num)
  refine ⟨main.1, main.2, ?_⟩
  rw [main.2]
  norm_num

/-- Claim C3 (amended): the wall-clamp band 20 + radius ≤ x ≤ 380 − radius,
y ≥ 20 holds immediately after the wall phase of the tick; the later bumper,
flipper and gutter repositioning can break it again before the tick ends. -/
theorem wall_band_after_wall_phase (b : Ball) (hr : b.radius = 10) :
    20 + (wallStep b).radius ≤ (wallStep b).x ∧
    (wallStep b).x ≤ 380 - (wallStep b).radius ∧ 20 ≤ (wallStep b).y := by
  obtain ⟨x, y, vx, vy, r⟩ := b
  simp only at hr
  subst hr
  simp only [wallStep]
  split_ifs <;> simp only at * <;> refine ⟨?_, ?_, ?_⟩
  all_goals try norm_num
  all_goals linarith

/-- Witness for C3's amended statement, at a ball beyond every boundary. -/
theorem wall_band_witness :
    ((⟨0, 0, 0, 0, 10⟩ : Ball).radius = 10) ∧
    (20 + (wallStep ⟨0, 0, 0, 0, 10⟩).radius ≤ (wallStep ⟨0, 0, 0, 0, 10⟩).x ∧
     (wallStep ⟨0, 0, 0, 0, 10⟩).x ≤ 380 - (wallStep ⟨0, 0, 0, 0, 10⟩).radius ∧
     20 ≤ (wallStep ⟨0, 0, 0, 0, 10⟩).y) :=
  ⟨rfl, wall_band_after_wall_phase _ rfl⟩

/-! ### Claim C4 -/

/-- Claim C4: at the ball-lost check that ends every playing tick, a ball
below y = 780 costs one life; on the last life the game ends, with
highScore = max(highScore, score) both set and persisted and the score kept;
otherwise the ball is re-armed at the launch position (380, 650) with zero
velocity, launchPower resets to 0, and the phase returns to launching with
the score unchanged.  1 ≤ ballsLeft holds in every reachable playing state
(see the ballsLeft invariant), so the decrement reaches 0 exactly on the
last ball. -/
theorem ball_lost_transition (s : GameS) (hy : 780 < s.ball.y)
    (hb : 1 ≤ s.ballsLeft) :
    (ballLostStep s).ballsLeft = s.ballsLeft - 1 ∧
    (s.ballsLeft = 1 →
      (ballLostStep s).gameState = GState.gameover ∧
      (ballLostStep s).highScore = max s.highScore s.score ∧
      (ballLostStep s).stored = max s.highScore s.score ∧
      (ballLostStep s).score = s.score) ∧
    (2 ≤ s.ballsLeft →
      (ballLostStep s).ball = launchBall ∧
      launchBall = ⟨380, 650, 0, 0, 10⟩ ∧
      (ballLostStep s).gameState = GState.launching ∧
      (ballLostStep s).launchPower = 0 ∧
      (ballLostStep s).score = s.score ∧
      (ballLostStep s).highScore = s.highScore ∧
      (ballLostStep s).stored = s.stored) := by
  refine ⟨?_, ?_, ?_⟩
  · rw [ballLostStep_ballsLeft, if_pos hy]
  · intro h1
    have hle : s.ballsLeft - 1 ≤ 0 := by omega
    refine ⟨?_, ?_, ?_, ?_⟩ <;>
      simp only [ballLostStep, if_pos hy, if_pos hle]
  · intro h2
    have hle : ¬ (s.ballsLeft - 1 ≤ 0) := by omega
    refine ⟨?_, ?_, ?_, ?_, ?_, ?_, ?_⟩ <;>
      first
        | rfl
        | simp only [ballLostStep, if_pos hy, if_neg hle]

/-- Witness for C4: the spec's scenario — ball at y = 785 on the last life
ends the game and lifts the high score to max(10, 42). -/
theorem ball_lost_transition_witness :
    (780:ℝ) < lostState.ball.y ∧ (1:ℤ) ≤ lostState.ballsLeft ∧
    (ballLostStep lostState).ballsLeft = lostState.ballsLeft - 1 ∧
    (ballLostStep lostState).gameState = GState.gameover ∧
    (ballLostStep lostState).highScore = max lostState.highScore lostState.score ∧
    (ballLostStep lostState).stored = max lostState.highScore lostState.score := by
  have hy : (780:ℝ) < lostState.ball.y := by norm_num [lostState]
  have hb : (1:ℤ) ≤ lostState.ballsLeft := le_refl 1
  have main := ball_lost_transition lostState hy hb
  have h1 : lostState.ballsLeft = 1 := rfl
  exact ⟨hy, hb, main.1, (main.2.1 h1).1, (main.2.1 h1).2.1, (main.2.1 h1).2.2.1⟩

/-! ### Claim C5 -/

theorem min_add_clamp (a : ℝ) : min (min a 100 + 2) 100 = min (a + 2) 100 := by
  rcases le_total a 100 with h | h
  · rw [min_eq_left h]
  · rw [min_eq_right h, min_eq_right (by linarith : (100:ℝ) ≤ a + 2)]
    norm_num [min_def]

/-- Claim C5: while launching with the launch key held, every tick raises
launchPower by 2 clamped at 100 — N ticks from power 0 leave min(2N, 100) —
and releasing space with power P > 0 fires the ball with vy = −0.3·P,
vx = −2 and moves the machine to playing. -/
theorem launch_mechanism (s : GameS) (n : ℕ) :
    (s.gameState = GState.launching → s.keys.space = true → s.launchPower = 0 →
      (tick^[n] s).launchPower = min (2 * (n : ℝ)) 100) ∧
    (s.gameState = GState.launching → 0 < s.launchPower →
      (keyup Key.space s).ball.vy = -0.3 * s.launchPower ∧
      (keyup Key.space s).ball.vx = -2 ∧
      (keyup Key.space s).gameState = GState.playing) := by
  constructor
  · intro hg hk h0
    have main : ∀ m : ℕ, (tick^[m] s).gameState = GState.launching ∧
        (tick^[m] s).keys = s.keys ∧
        (tick^[m] s).launchPower = min (2 * (m:ℝ)) 100 := by
      intro m
      induction m with
      | zero =>
        refine ⟨hg, rfl, ?_⟩
        rw [Function.iterate_zero_apply, h0]
        norm_num [min_def]
      | succ k ih =>
        obtain ⟨ihg, ihk, ihp⟩ := ih
        have hstep : tick (tick^[k] s) =
            flipperStep (launchPowerStep (tick^[k] s)) := by
          apply tick_of_not_playing
          rw [ihg]
          intro hcontra
          exact GState.noConfusion hcontra
        rw [Function.iterate_succ_apply', hstep]
        have hcond : (tick^[k] s).gameState = GState.launching ∧
            (tick^[k] s).keys.space = true := ⟨ihg, by rw [ihk]; exact hk⟩
        refine ⟨?_, ?_, ?_⟩
        · simp [ihg]
        · simp [ihk]
        · simp only [flipperStep_launchPower]
          simp only [launchPowerStep, if_pos hcond]
          rw [ihp, min_add_clamp]
          congr 1
          push_cast
          ring
    exact (main n).2.2
  · intro hg hp
    simp only [keyup]
    split_ifs with hcond
    · exact ⟨by ring, rfl, rfl⟩
    · exact absurd ⟨by trivial, hg, hp⟩ hcond

/-- Witness for C5: three charging ticks from zero power give min(6, 100),
and releasing at power 40 yields vy = −12, vx = −2, playing. -/
theorem launch_mechanism_witness :
    chargeState.gameState = GState.launching ∧ chargeState.keys.space = true ∧
    chargeState.launchPower = 0 ∧
    (tick^[3] chargeState).launchPower = min (2 * ((3:ℕ):ℝ)) 100 ∧
    releaseState.gameState = GState.launching ∧
    (0:ℝ) < releaseState.launchPower ∧
    (keyup Key.space releaseState).ball.vy = -0.3 * releaseState.launchPower ∧
    (keyup Key.space releaseState).ball.vx = -2 ∧
    (keyup Key.space releaseState).gameState = GState.playing := by
  have h1 : chargeState.gameState = GState.launching := rfl
  have h2 : chargeState.keys.space = true := rfl
  have h3 : chargeState.launchPower = 0 := rfl
  have h4 : releaseState.gameState = GState.launching := rfl
  have h5 : (0:ℝ) < releaseState.launchPower := by
    show (0:ℝ) < 40
    norm_num
  have a := (launch_mechanism chargeState 3).1 h1 h2 h3
  have b := (launch_mechanism releaseState 0).2 h4 h5
  exact ⟨h1, h2, h3, a, h4, h5, b.1, b.2.1, b.2.2⟩

/-! ### Trail and ballsLeft bookkeeping across events -/

theorem collisionPhase_trail (s : GameS) :
    (collisionPhase s).trail = updateTrail s.trail (applyPhysics s.ball) := rfl

@[simp] theorem keydown_trail (k : Key) (s : GameS) :
    (keydown k s).trail = s.trail := by
  simp only [keydown]; split <;> rfl

@[simp] theorem keyup_trail (k : Key) (s : GameS) :
    (keyup k s).trail = s.trail := by
  simp only [keyup]; split <;> rfl

@[simp] theorem keydown_ballsLeft_cases (k : Key) (s : GameS) :
    (keydown k s).ballsLeft = s.ballsLeft ∨ (keydown k s).ballsLeft = 3 := by
  simp only [keydown]; split
  · right; rfl
  · left; rfl

@[simp] theorem keyup_ballsLeft (k : Key) (s : GameS) :
    (keyup k s).ballsLeft = s.ballsLeft := by
  simp only [keyup]; split <;> rfl

theorem keydown_gameState (k : Key) (s : GameS) :
    (keydown k s).gameState = GState.launching ∨
      (keydown k s).gameState = s.gameState := by
  simp only [keydown]; split
  · left; rfl
  · right; rfl

theorem keyup_gameState (k : Key) (s : GameS) :
    ((keyup k s).gameState = GState.playing ∧ s.gameState = GState.launching) ∨
      (keyup k s).gameState = s.gameState := by
  simp only [keyup]; split
  · rename_i hcond
    exact Or.inl ⟨rfl, hcond.2.1⟩
  · right; rfl

/-- The per-tick evolution of ballsLeft: one is lost exactly on a detected
ball-lost tick, otherwise it is untouched. -/
theorem tick_ballsLeft (s : GameS) :
    (tick s).ballsLeft =
      if ballLostIn s then s.ballsLeft - 1 else s.ballsLeft := by
  by_cases hp : s.gameState = GState.playing
  · rw [tick_of_playing s hp]
    show (ballLostStep (collisionPhase (flipperStep (launchPowerStep s)))).ballsLeft = _
    rw [ballLostStep_ballsLeft]
    simp only [collisionPhase_ballsLeft, flipperStep_ballsLeft, launchPowerStep_ballsLeft]
    unfold ballLostIn
    by_cases hy : 780 < (collisionPhase (flipperStep (launchPowerStep s))).ball.y
    · rw [if_pos hy, if_pos ⟨hp, hy⟩]
    · rw [if_neg hy, if_neg (fun hc => hy hc.2)]
  · rw [tick_of_not_playing s hp]
    simp only [flipperStep_ballsLeft, launchPowerStep_ballsLeft]
    rw [if_neg (fun hc => hp hc.1)]

/-- The trail after one tick: one point is appended (at the post-integration
ball position) and the buffer pruned and faded exactly on playing ticks. -/
theorem tick_trail (s : GameS) :
    (tick s).trail =
      if s.gameState = GState.playing
        then updateTrail s.trail (applyPhysics s.ball) else s.trail := by
  by_cases hp : s.gameState = GState.playing
  · rw [tick_of_playing s hp, if_pos hp]
    show (ballLostStep (collisionPhase (flipperStep (launchPowerStep s)))).trail = _
    rw [ballLostStep_trail, collisionPhase_trail]
    simp only [flipperStep_trail, launchPowerStep_trail, flipperStep_ball,
      launchPowerStep_ball]
  · rw [tick_of_not_playing s hp, if_neg hp]
    simp only [flipperStep_trail, launchPowerStep_trail]

/-- The trail update, restated: the oldest point is dropped exactly when the
buffer already has 20 entries, the post-integration position is appended at
alpha 1, and every point (the new one included) is faded by 0.9. -/
theorem updateTrail_eq (tr : List TrailPoint) (b : Ball) (h : tr.length ≤ 20) :
    updateTrail tr b =
      ((if tr.length = 20 then tr.tail else tr) ++ [(⟨b.x, b.y, 1⟩ : TrailPoint)]).map
        (fun p : TrailPoint => { p with alpha := p.alpha * 0.9 }) := by
  simp only [updateTrail]
  rcases Nat.lt_or_ge tr.length 20 with hlt | hge
  · have hc : ¬ (20 < (tr ++ [(⟨b.x, b.y, 1⟩ : TrailPoint)]).length) := by
      simp only [List.length_append, List.length_singleton]
      omega
    rw [if_neg hc, if_neg (by omega : ¬ tr.length = 20)]
  · have h20 : tr.length = 20 := le_antisymm h hge
    have hc : 20 < (tr ++ [(⟨b.x, b.y, 1⟩ : TrailPoint)]).length := by
      simp only [List.length_append, List.length_singleton]
      omega
    rw [if_pos hc, if_pos h20]
    obtain ⟨a, t, rfl⟩ : ∃ a t, tr = a :: t := by
      cases tr with
      | nil => simp at h20
      | cons a t => exact ⟨a, t, rfl⟩
    rfl

/-- The trail never exceeds 20 points once it is within 20 points. -/
theorem updateTrail_length (tr : List TrailPoint) (b : Ball)
    (h : tr.length ≤ 20) : (updateTrail tr b).length ≤ 20 := by
  rw [updateTrail_eq tr b h]
  rcases Nat.lt_or_ge tr.length 20 with hlt | hge
  · rw [if_neg (by omega : ¬ tr.length = 20)]
    simp only [List.length_map, List.length_append, List.length_singleton]
    omega
  · have h20 : tr.length = 20 := le_antisymm h hge
    rw [if_pos h20]
    simp only [List.length_map, List.length_append, List.length_singleton,
      List.length_tail]
    omega

/-- In every reachable state the trail holds at most 20 points. -/
theorem trail_bound_reachable (s : GameS) (h : Reachable s) :
    s.trail.length ≤ 20 := by
  induction h with
  | init h0 =>
    show ([] : List TrailPoint).length ≤ 20
    simp
  | @tick s hs ih =>
    rw [tick_trail]
    split_ifs
    · exact updateTrail_length _ _ ih
    · exact ih
  | @keydown s k hs ih =>
    rw [keydown_trail]
    exact ih
  | @keyup s k hs ih =>
    rw [keyup_trail]
    exact ih

/-- The ball-lost bookkeeping preserves the life-count invariant. -/
theorem ballLostStep_inv (s : GameS) (h1 : 1 ≤ s.ballsLeft) :
    0 ≤ (ballLostStep s).ballsLeft ∧
      (((ballLostStep s).gameState = GState.playing ∨
        (ballLostStep s).gameState = GState.launching) →
        1 ≤ (ballLostStep s).ballsLeft) := by
  simp only [ballLostStep]
  split_ifs with hy hle
  · refine ⟨show (0:ℤ) ≤ s.ballsLeft - 1 by omega, ?_⟩
    intro hcontra
    rcases hcontra with hc | hc <;> exact hc.elim
  · refine ⟨show (0:ℤ) ≤ s.ballsLeft - 1 by omega, ?_⟩
    intro _
    show (1:ℤ) ≤ s.ballsLeft - 1
    omega
  · exact ⟨by omega, fun _ => h1⟩

/-- The state-machine invariant on lives: never negative, and at least one
ball remains in every playing or launching state. -/
theorem ballsLeft_invariant (s : GameS) (h : Reachable s) :
    0 ≤ s.ballsLeft ∧
      ((s.gameState = GState.playing ∨ s.gameState = GState.launching) →
        1 ≤ s.ballsLeft) := by
  induction h with
  | init h0 =>
    constructor
    · show (0:ℤ) ≤ 3
      norm_num
    · intro _
      show (1:ℤ) ≤ 3
      norm_num
  | @tick s hs ih =>
    by_cases hp : s.gameState = GState.playing
    · rw [tick_of_playing s hp]
      show 0 ≤ (ballLostStep (collisionPhase (flipperStep (launchPowerStep s)))).ballsLeft ∧ _
      have hball : 1 ≤ (collisionPhase (flipperStep (launchPowerStep s))).ballsLeft := by
        simp only [collisionPhase_ballsLeft, flipperStep_ballsLeft,
          launchPowerStep_ballsLeft]
        exact ih.2 (Or.inl hp)
      exact ballLostStep_inv _ hball
    · rw [tick_of_not_playing s hp]
      refine ⟨by simpa using ih.1, ?_⟩
      intro hg
      simp only [flipperStep_gameState, launchPowerStep_gameState] at hg
      simpa using ih.2 hg
  | @keydown s k hs ih =>
    simp only [keydown]
    split_ifs with hc
    · constructor
      · show (0:ℤ) ≤ 3
        norm_num
      · intro _
        show (1:ℤ) ≤ 3
        norm_num
    · exact ih
  | @keyup s k hs ih =>
    simp only [keyup]
    split_ifs with hc
    · refine ⟨ih.1, fun _ => ih.2 (Or.inr hc.2.1)⟩
    · exact ih

/-- Claim C7: in every reachable state ballsLeft ≥ 0; a tick that detects a
lost ball decrements it by exactly 1, any other tick and every key release
leave it unchanged, and a key press either leaves it unchanged or resets it
to 3 (game start or restart). -/
theorem ballsLeft_spec (s : GameS) (h : Reachable s) :
    0 ≤ s.ballsLeft ∧
    (ballLostIn s → (tick s).ballsLeft = s.ballsLeft - 1) ∧
    (¬ ballLostIn s → (tick s).ballsLeft = s.ballsLeft) ∧
    (∀ k, (keyup k s).ballsLeft = s.ballsLeft) ∧
    (∀ k, (keydown k s).ballsLeft = s.ballsLeft ∨ (keydown k s).ballsLeft = 3) := by
  refine ⟨(ballsLeft_invariant s h).1, ?_, ?_, ?_, ?_⟩
  · intro hl
    rw [tick_ballsLeft, if_pos hl]
  · intro hl
    rw [tick_ballsLeft, if_neg hl]
  · exact fun k => keyup_ballsLeft k s
  · exact fun k => keydown_ballsLeft_cases k s

/-- Witness for C7 at the freshly loaded state. -/
theorem ballsLeft_spec_witness :
    0 ≤ (initS 0).ballsLeft ∧
    (ballLostIn (initS 0) → (tick (initS 0)).ballsLeft = (initS 0).ballsLeft - 1) ∧
    (¬ ballLostIn (initS 0) → (tick (initS 0)).ballsLeft = (initS 0).ballsLeft) ∧
    (∀ k, (keyup k (initS 0)).ballsLeft = (initS 0).ballsLeft) ∧
    (∀ k, (keydown k (initS 0)).ballsLeft = (initS 0).ballsLeft ∨
      (keydown k (initS 0)).ballsLeft = 3) :=
  ballsLeft_spec (initS 0) (Reachable.init 0)

/-! ### Claim C10 -/

/-- Claim C10: every playing tick appends exactly one trail point — the
post-integration ball position at alpha 1 — drops the oldest point exactly
when the buffer already holds 20, and fades every surviving point's alpha by
0.9, keeping the buffer at ≤ 20 points in oldest-to-newest order; reachable
states never exceed 20 trail points. -/
theorem trail_spec (s : GameS) (tr : List TrailPoint) (b : Ball) :
    (Reachable s → s.trail.length ≤ 20) ∧
    (tr.length ≤ 20 →
      updateTrail tr b =
        ((if tr.length = 20 then tr.tail else tr) ++
          [(⟨b.x, b.y, 1⟩ : TrailPoint)]).map
          (fun p : TrailPoint => { p with alpha := p.alpha * 0.9 }) ∧
      (updateTrail tr b).length ≤ 20) ∧
    (s.gameState = GState.playing →
      (tick s).trail = updateTrail s.trail (applyPhysics s.ball)) := by
  refine ⟨trail_bound_reachable s, ?_, ?_⟩
  · intro hlen
    exact ⟨updateTrail_eq tr b hlen, updateTrail_length tr b hlen⟩
  · intro hp
    rw [tick_trail, if_pos hp]

/-- Witness for C10: the initial state's empty trail, a one-point buffer, and
a playing tick from the play state. -/
theorem trail_spec_witness :
    ((initS 0).trail.length ≤ 20) ∧
    (([(⟨1, 2, 1⟩ : TrailPoint)] : List TrailPoint).length ≤ 20) ∧
    (updateTrail [(⟨1, 2, 1⟩ : TrailPoint)] launchBall =
      ((if ([(⟨1, 2, 1⟩ : TrailPoint)] : List TrailPoint).length = 20
          then ([(⟨1, 2, 1⟩ : TrailPoint)] : List TrailPoint).tail
          else [(⟨1, 2, 1⟩ : TrailPoint)]) ++
        [(⟨launchBall.x, launchBall.y, 1⟩ : TrailPoint)]).map
        (fun p : TrailPoint => { p with alpha := p.alpha * 0.9 }) ∧
      (updateTrail [(⟨1, 2, 1⟩ : TrailPoint)] launchBall).length ≤ 20) ∧
    (playState.gameState = GState.playing ∧
      (tick playState).trail = updateTrail playState.trail (applyPhysics playState.ball)) := by
  refine ⟨(trail_spec (initS 0) [] launchBall).1 (Reachable.init 0), by norm_num, ?_, rfl, ?_⟩
  · exact (trail_spec (initS 0) [(⟨1, 2, 1⟩ : TrailPoint)] launchBall).2.1 (by norm_num)
  · exact (trail_spec playState [] launchBall).2.2 rfl

/-! ### Fixed points of the per-tick phases, for concrete tick evaluations -/

theorem updateFlipper_fL : updateFlipper ⟨false, false, false⟩ fL = fL := by
  simp only [updateFlipper, fL, FLIPPER_SPEED]
  norm_num

theorem updateFlipper_fR : updateFlipper ⟨false, false, false⟩ fR = fR := by
  simp only [updateFlipper, fR, FLIPPER_SPEED]
  norm_num

/-- With no keys held and both flippers at rest, the flipper controller is a
no-op. -/
theorem flipperStep_rest (s : GameS) (hf : s.flippers = [fL, fR])
    (hk : s.keys = ⟨false, false, false⟩) : flipperStep s = s := by
  cases s with
  | mk b f bu sc hs bl gs lp tr k st =>
    simp only at hf hk
    subst hf
    subst hk
    simp only [flipperStep, List.map_cons, List.map_nil, updateFlipper_fL,
      updateFlipper_fR]

theorem sin_04_nonneg : 0 ≤ Real.sin 0.4 :=
  Real.sin_nonneg_of_nonneg_of_le_pi (by norm_num)
    (le_trans (by norm_num) Real.pi_gt_three.le)

/-- The resting left flipper misses any ball radius+8 above its pivot. -/
theorem fL_miss (b : Ball) (hm : 0 ≤ b.radius + 8)
    (hgap : b.radius + 8 ≤ 680 - b.y) : resolveFlipper b fL = b := by
  apply resolveFlipper_missAbove b fL ?_ hm hgap
  show 0 ≤ Real.sin (0.4 : ℝ) * 70
  exact mul_nonneg sin_04_nonneg (by norm_num)

/-- The resting right flipper misses any ball radius+8 above its pivot. -/
theorem fR_miss (b : Ball) (hm : 0 ≤ b.radius + 8)
    (hgap : b.radius + 8 ≤ 680 - b.y) : resolveFlipper b fR = b := by
  apply resolveFlipper_missAbove b fR ?_ hm hgap
  show 0 ≤ Real.sin (Real.pi - 0.4) * 70
  rw [Real.sin_pi_sub]
  exact mul_nonneg sin_04_nonneg (by norm_num)

/-- A gutter wall (both run from y = 550 down to y = 650) misses any ball
radius+3 above y = 550. -/
theorem gutter_missAbove (x1 x2 : ℝ) (b : Ball) (hm : 0 ≤ b.radius + 3)
    (hgap : b.radius + 3 ≤ 550 - b.y) : checkAngledWall x1 550 x2 650 b = b := by
  apply checkAngledWall_miss
  apply sq_le_dist2_of_y_gap _ _ _ _ _ hm
  have := segClosest_y_ge x1 550 x2 650 b.x b.y (by norm_num)
  linarith

theorem ballLostStep_id (s : GameS) (h : ¬ 780 < s.ball.y) :
    ballLostStep s = s := by
  simp only [ballLostStep]
  rw [if_neg h]

theorem bumperFold_miss (b : Ball) (bus : List Bumper) (sc : ℤ)
    (acc : List Bumper) (h : ∀ bu ∈ bus, resolveBumper b bu = (b, bu, 0)) :
    bus.foldl bumperFold (b, acc, sc) = (b, acc ++ bus, sc) := by
  induction bus generalizing acc with
  | nil => simp
  | cons bu rest ih =>
    simp only [List.foldl_cons, bumperFold]
    rw [h bu (by simp)]
    have step := ih (acc ++ [bu]) (fun c hc => h c (by simp [hc]))
    simpa using step

/-- A ball overlapping no bumper passes the whole bumper phase untouched and
scores nothing. -/
theorem bumperPhase_miss (b : Ball) (bus : List Bumper) (sc : ℤ)
    (h : ∀ bu ∈ bus, resolveBumper b bu = (b, bu, 0)) :
    bumperPhase b bus sc = (b, bus, sc) := by
  unfold bumperPhase
  simpa using bumperFold_miss b bus sc [] h

/-- Claim C6 (counterexample): a playing tick whose ball penetrates the left
wall while moving away from it (vx > 0 — a state the gutter repositioning
can produce).  The wall check uses Math.abs, so the outgoing component stays
positive (199/50) instead of being the reversed −0.8·vx the claim requires. -/
theorem wall_restitution_cex :
    awayState.gameState = GState.playing ∧
    (applyPhysics awayState.ball).x - (applyPhysics awayState.ball).radius < 20 ∧
    0 < (applyPhysics awayState.ball).vx ∧
    (tick awayState).ball.vx = 199 / 50 ∧
    ¬ ((tick awayState).ball.vx = -(0.8 * (applyPhysics awayState.ball).vx)) := by
  have hb1 : applyPhysics awayState.ball =
      ⟨999/40, 400597/4000, 199/40, 597/4000, 10⟩ := by
    show applyPhysics ⟨20, 100, 5, 0, 10⟩ = _
    simp only [applyPhysics, GRAVITY, FRICTION]
    norm_num [Ball.mk.injEq]
  have habs : |(199/40 : ℝ)| = 199/40 := abs_of_nonneg (by norm_num)
  have hb2 : wallStep (⟨999/40, 400597/4000, 199/40, 597/4000, 10⟩ : Ball) =
      ⟨30, 400597/4000, 199/50, 597/4000, 10⟩ := by
    simp only [wallStep]
    split_ifs with h1 h2 h3 <;>
      first
        | (norm_num [Ball.mk.injEq, habs]; done)
        | (exfalso; norm_num at *)
  have hbump : ∀ bu ∈ awayState.bumpers,
      resolveBumper (⟨30, 400597/4000, 199/50, 597/4000, 10⟩ : Ball) bu =
        ((⟨30, 400597/4000, 199/50, 597/4000, 10⟩ : Ball), bu, 0) := by
    intro bu hbu
    fin_cases hbu <;> (apply resolveBumper_miss; norm_num)
  have hflip : [fL, fR].foldl resolveFlipper
      (⟨30, 400597/4000, 199/50, 597/4000, 10⟩ : Ball) =
      (⟨30, 400597/4000, 199/50, 597/4000, 10⟩ : Ball) := by
    simp only [List.foldl_cons, List.foldl_nil]
    rw [fL_miss _ (by norm_num) (by norm_num), fR_miss _ (by norm_num) (by norm_num)]
  have hcol : (collisionPhase awayState).ball =
      ⟨30, 400597/4000, 199/50, 597/4000, 10⟩ := by
    simp only [collisionPhase]
    rw [hb1, hb2, bumperPhase_miss _ _ _ hbump]
    show checkAngledWall 380 550 300 650 (checkAngledWall 20 550 100 650
      (awayState.flippers.foldl resolveFlipper
        (⟨30, 400597/4000, 199/50, 597/4000, 10⟩ : Ball))) = _
    rw [show awayState.flippers = [fL, fR] from rfl, hflip,
      gutter_missAbove 20 100 _ (by norm_num) (by norm_num),
      gutter_missAbove 380 300 _ (by norm_num) (by norm_num)]
  have hyNo : ¬ (780 < (collisionPhase awayState).ball.y) := by
    rw [hcol]
    norm_num
  have htick : (tick awayState).ball =
      ⟨30, 400597/4000, 199/50, 597/4000, 10⟩ := by
    rw [tick_of_playing awayState rfl,
      launchPowerStep_of_not_launching awayState
        (fun hc => GState.noConfusion hc),
      flipperStep_rest awayState rfl rfl]
    show (ballLostStep (collisionPhase awayState)).ball = _
    rw [ballLostStep_id _ hyNo, hcol]
  refine ⟨rfl, ?_, ?_, ?_, ?_⟩
  · rw [hb1]
    norm_num
  · rw [hb1]
    norm_num
  · rw [htick]
  · rw [htick, hb1]
    norm_num

theorem wallStep_id (b : Ball) (h1 : ¬ (b.x - b.radius < 20))
    (h2 : ¬ (b.x + b.radius > 380)) (h3 : ¬ (b.y - b.radius < 20)) :
    wallStep b = b := by
  simp only [wallStep]
  rw [if_neg h1, if_neg h2, if_neg h3]

/-- The right gutter misses any ball radius+3 left of x = 300 (its segment
runs from x = 380 down-left to x = 300). -/
theorem gutter_missLeftOf (b : Ball) (hm : 0 ≤ b.radius + 3)
    (hx : b.radius + 3 ≤ 300 - b.x) : checkAngledWall 380 550 300 650 b = b := by
  apply checkAngledWall_miss
  apply sq_le_dist2_of_x_gap _ _ _ _ _ hm
  have := segClosest_x_ge 380 550 300 650 b.x b.y (by norm_num)
  linarith

theorem sqrt41_sq : Real.sqrt 41 ^ 2 = 41 := Real.sq_sqrt (by norm_num)

theorem sqrt41_pos : (0:ℝ) < Real.sqrt 41 := Real.sqrt_pos.mpr (by norm_num)

theorem sqrt41_lb : (6:ℝ) < Real.sqrt 41 :=
  (Real.lt_sqrt (by norm_num)).mpr (by norm_num)

theorem sqrt41_ub : Real.sqrt 41 < 7 :=
  (Real.sqrt_lt' (by norm_num)).mpr (by norm_num)

theorem sqrt_36900_div : Real.sqrt (36900/1681) = 30 * Real.sqrt 41 / 41 := by
  rw [show (36900:ℝ)/1681 = (30 * Real.sqrt 41 / 41)^2 from by
    rw [div_pow, mul_pow, sqrt41_sq]; norm_num]
  exact Real.sqrt_sq (by positivity)

theorem gutter_cos :
    Real.cos (atan2 (120/41) (-150/41)) = -5 * Real.sqrt 41 / 41 := by
  rw [atan2_cos _ _ (by norm_num)]
  rw [show (-150/41 : ℝ) * (-150/41) + 120/41 * (120/41) = 36900/1681 from by
    norm_num]
  rw [sqrt_36900_div]
  rw [div_eq_div_iff (by positivity) (by norm_num : (41:ℝ) ≠ 0)]
  linear_combination (150/41) * sqrt41_sq

theorem gutter_sin :
    Real.sin (atan2 (120/41) (-150/41)) = 4 * Real.sqrt 41 / 41 := by
  rw [atan2_sin]
  rw [show (-150/41 : ℝ) * (-150/41) + 120/41 * (120/41) = 36900/1681 from by
    norm_num]
  rw [sqrt_36900_div]
  rw [div_eq_div_iff (by positivity) (by norm_num : (41:ℝ) ≠ 0)]
  linear_combination (-120/41) * sqrt41_sq

theorem gutter_param : segParam 20 550 100 650 30 570 = 7/41 := by
  simp only [segParam, segDenom]
  norm_num [min_def, max_def]

theorem gutter_closest : segClosest 20 550 100 650 30 570 = (1380/41, 23250/41) := by
  simp only [segClosest, gutter_param]
  norm_num

/-- The left gutter wall catches the ball at (30, 570) and pushes it out
along the contact normal, beyond the left wall band. -/
theorem gutter_fire :
    checkAngledWall 20 550 100 650 (⟨30, 570, 0, 597/4000, 10⟩ : Ball) =
      ⟨1380/41 + -5 * Real.sqrt 41 / 41 * 15,
       23250/41 + 4 * Real.sqrt 41 / 41 * 15,
       -5 * Real.sqrt 41 / 41 * (597/4000) * 0.7,
       4 * Real.sqrt 41 / 41 * (597/4000) * 0.7, 10⟩ := by
  have hcond : Real.sqrt (36900/1681) < (10:ℝ) + 3 := by
    rw [sqrt_36900_div]
    linarith [sqrt41_ub]
  simp only [checkAngledWall, gutter_closest]
  rw [show (30:ℝ) - 1380/41 = -150/41 from by norm_num,
      show (570:ℝ) - 23250/41 = 120/41 from by norm_num,
      show (-150/41 : ℝ) * (-150/41) + 120/41 * (120/41) = 36900/1681 from by
        norm_num,
      show (0:ℝ) * 0 + 597/4000 * (597/4000) = (597/4000)^2 from by norm_num]
  rw [if_pos hcond]
  rw [gutter_cos, gutter_sin, Real.sqrt_sq (by norm_num : (0:ℝ) ≤ 597/4000)]
  simp only [Ball.mk.injEq]
  refine ⟨?_, ?_, ?_, ?_, ?_⟩ <;> ring

/-- Claim C3 (counterexample): a playing tick that ends with the ball OUT of
the wall band.  The ball drifts to (30, 570) beside the left gutter's upper
reach; walls, bumpers and flippers leave it alone, then the gutter check —
which runs after every wall correction — repositions it along the contact
normal to x = 1380/41 − 75·√41/41 ≈ 21.9 < 30 = 20 + radius at tick end. -/
theorem end_of_tick_band_cex :
    gutterState.gameState = GState.playing ∧
    (tick gutterState).ball.radius = 10 ∧
    (tick gutterState).ball.x < 20 + (tick gutterState).ball.radius := by
  have hb1 : applyPhysics gutterState.ball = ⟨30, 570, 0, 597/4000, 10⟩ := by
    show applyPhysics ⟨30, 2279403/4000, 0, 0, 10⟩ = _
    simp only [applyPhysics, GRAVITY, FRICTION]
    norm_num [Ball.mk.injEq]
  have hb2 : wallStep (⟨30, 570, 0, 597/4000, 10⟩ : Ball) =
      ⟨30, 570, 0, 597/4000, 10⟩ :=
    wallStep_id _ (by norm_num) (by norm_num) (by norm_num)
  have hbump : ∀ bu ∈ gutterState.bumpers,
      resolveBumper (⟨30, 570, 0, 597/4000, 10⟩ : Ball) bu =
        ((⟨30, 570, 0, 597/4000, 10⟩ : Ball), bu, 0) := by
    intro bu hbu
    fin_cases hbu <;> (apply resolveBumper_miss; norm_num)
  have hflip : [fL, fR].foldl resolveFlipper (⟨30, 570, 0, 597/4000, 10⟩ : Ball) =
      (⟨30, 570, 0, 597/4000, 10⟩ : Ball) := by
    simp only [List.foldl_cons, List.foldl_nil]
    rw [fL_miss _ (by norm_num) (by norm_num), fR_miss _ (by norm_num) (by norm_num)]
  have hg2 : checkAngledWall 380 550 300 650
      (⟨1380/41 + -5 * Real.sqrt 41 / 41 * 15,
        23250/41 + 4 * Real.sqrt 41 / 41 * 15,
        -5 * Real.sqrt 41 / 41 * (597/4000) * 0.7,
        4 * Real.sqrt 41 / 41 * (597/4000) * 0.7, 10⟩ : Ball) =
      ⟨1380/41 + -5 * Real.sqrt 41 / 41 * 15,
       23250/41 + 4 * Real.sqrt 41 / 41 * 15,
       -5 * Real.sqrt 41 / 41 * (597/4000) * 0.7,
       4 * Real.sqrt 41 / 41 * (597/4000) * 0.7, 10⟩ := by
    apply gutter_missLeftOf _ (by norm_num)
    show (10:ℝ) + 3 ≤ 300 - (1380/41 + -5 * Real.sqrt 41 / 41 * 15)
    linarith [sqrt41_pos]
  have hcol : (collisionPhase gutterState).ball =
      ⟨1380/41 + -5 * Real.sqrt 41 / 41 * 15,
       23250/41 + 4 * Real.sqrt 41 / 41 * 15,
       -5 * Real.sqrt 41 / 41 * (597/4000) * 0.7,
       4 * Real.sqrt 41 / 41 * (597/4000) * 0.7, 10⟩ := by
    simp only [collisionPhase]
    rw [hb1, hb2, bumperPhase_miss _ _ _ hbump]
    show checkAngledWall 380 550 300 650 (checkAngledWall 20 550 100 650
      (gutterState.flippers.foldl resolveFlipper
        (⟨30, 570, 0, 597/4000, 10⟩ : Ball))) = _
    rw [show gutterState.flippers = [fL, fR] from rfl, hflip, gutter_fire, hg2]
  have hyNo : ¬ (780 < (collisionPhase gutterState).ball.y) := by
    rw [hcol]
    push_neg
    show (23250/41 + 4 * Real.sqrt 41 / 41 * 15 : ℝ) ≤ 780
    linarith [sqrt41_ub]
  have htick : (tick gutterState).ball =
      ⟨1380/41 + -5 * Real.sqrt 41 / 41 * 15,
       23250/41 + 4 * Real.sqrt 41 / 41 * 15,
       -5 * Real.sqrt 41 / 41 * (597/4000) * 0.7,
       4 * Real.sqrt 41 / 41 * (597/4000) * 0.7, 10⟩ := by
    rw [tick_of_playing gutterState rfl,
      launchPowerStep_of_not_launching gutterState
        (fun hc => GState.noConfusion hc),
      flipperStep_rest gutterState rfl rfl]
    show (ballLostStep (collisionPhase gutterState)).ball = _
    rw [ballLostStep_id _ hyNo, hcol]
  refine ⟨rfl, ?_, ?_⟩
  · rw [htick]
  · rw [htick]
    show (1380/41 + -5 * Real.sqrt 41 / 41 * 15 : ℝ) < 20 + 10
    linarith [sqrt41_lb]
